import Mathlib

/-!
Verification of the fibs-platforms toolchain plugins (wasi.ts, emscripten.ts,
ios.ts) against their natural-language specification.

The TypeScript sources are shallowly embedded: the filesystem is a snapshot of
existing directories and files, every externally visible action (logging,
download, subprocess, rename, delete, git clone/update, interactive prompt)
is recorded as an `Effect` in a trace, and the outcome of each external
collaborator (download, tar, git, the emsdk tool) is an explicit parameter, so
that each lifecycle operation becomes a pure function from a filesystem
snapshot and a collaborator environment to a trace, a new snapshot and an
optional error.
-/

namespace FibsPlatforms

/-- Snapshot of the parts of the filesystem the plugins look at: the set of
existing directories and the set of existing files, each as a list of paths. -/
structure FS where
  dirs : List String
  files : List String
deriving DecidableEq, Repr

/-- Embedding of `util.dirExists`. -/
def FS.dirExists (fs : FS) (d : String) : Bool :=
  fs.dirs.contains d

/-- Embedding of `util.fileExists`. -/
def FS.fileExists (fs : FS) (f : String) : Bool :=
  fs.files.contains f

/-- Effect of creating a directory (git clone, ensureSdkDir). -/
def FS.addDir (fs : FS) (d : String) : FS :=
  { fs with dirs := d :: fs.dirs }

/-- Effect of creating a file (a finished download, a cloned tool script). -/
def FS.addFile (fs : FS) (f : String) : FS :=
  { fs with files := f :: fs.files }

/-- Effect of `Deno.removeSync(dir, {recursive: true})` on the snapshot. -/
def FS.removeDir (fs : FS) (d : String) : FS :=
  { fs with dirs := fs.dirs.filter (fun x => x != d) }

/-- Effect of `Deno.removeSync(file)` on the snapshot. -/
def FS.removeFile (fs : FS) (f : String) : FS :=
  { fs with files := fs.files.filter (fun x => x != f) }

/-- Effect of `Deno.rename(src, dst)` on a directory. -/
def FS.renameDir (fs : FS) (src dst : String) : FS :=
  (fs.removeDir src).addDir dst

/-- One externally visible action of a lifecycle operation, in the order the
source performs it. -/
inductive Effect where
  | logSection (msg : String)
  | logInfo (msg : String)
  | logWarn (msg : String)
  | ask (prompt : String) (dflt : Bool)
  | download (url : String) (dir : String) (filename : String)
  | runCmd (cmd : String) (args : List String) (cwd : Option String)
  | rename (src dst : String)
  | removeDir (path : String)
  | removeFile (path : String)
  | gitClone (url dir : String)
  | gitUpdate (dir url : String) (force : Bool)
deriving DecidableEq, Repr

/-- Host descriptor: `host.arch()` and `host.platform()`. -/
structure Host where
  arch : String
  platform : String
deriving DecidableEq, Repr

/-- The slice of the fibs `Project` object the plugins use: `project.sdkDir()`,
the zero-argument `project.distDir()` used by the wasi runner, and the
`project.distDir(config.name)` used by the emscripten runner. -/
structure Project where
  sdkDir : String
  distDir0 : String
  distDir : String → String

/-- The slice of the fibs `Config` object the runners use. -/
structure Config where
  name : String
deriving DecidableEq, Repr

/-- The slice of the fibs `Target` object the runners use. -/
structure Target where
  name : String
deriving DecidableEq, Repr

/-- RunOptions as the spec's data model describes them: ordered extra
arguments, a working directory and environment overrides. -/
structure RunOptions where
  args : List String
  cwd : Option String
  envVars : List (String × String)
deriving DecidableEq, Repr

/-- Result of one lifecycle operation: the ordered effect trace, the
filesystem snapshot afterwards, and the raised error if the operation threw. -/
structure OpResult where
  trace : List Effect
  fs : FS
  error : Option String
deriving DecidableEq, Repr

/-! ## wasi.ts -/

/-- Constant `SDKVERSION` from wasi.ts. -/
def SDKVERSION : Nat := 29

/-- Embedding of `getSdkName` from wasi.ts. -/
def getSdkName (h : Host) : String :=
  "wasi-sdk-" ++ toString SDKVERSION ++ ".0-" ++ h.arch ++ "-" ++ h.platform

/-- Embedding of `getUrl` from wasi.ts. -/
def getUrl (h : Host) : String :=
  "https://github.com/WebAssembly/wasi-sdk/releases/download/wasi-sdk-" ++
    toString SDKVERSION ++ "/" ++ getSdkName h ++ ".tar.gz"

/-- Embedding of `wasisdkDir` from wasi.ts. -/
def wasisdkDir (p : Project) : String :=
  p.sdkDir ++ "/wasisdk"

/-- Manager-level `isInstalled()` for the WASI SDK: the normalized directory
exists (wasi.ts has no separate isInstalled function; this is the check both
`download` and the config validate function perform). -/
def wasiIsInstalled (p : Project) (fs : FS) : Bool :=
  fs.dirExists (wasisdkDir p)

/-- Outcomes of the external collaborators the wasi install path consults:
whether `project.tool('tar').exists()` answers true, and whether
`util.download` and the tar subprocess succeed or throw. -/
structure WasiEnv where
  host : Host
  tarAvailable : Bool
  downloadResult : Except String Unit
  tarResult : Except String Unit

/-- Embedding of `download` from wasi.ts lines 178-200: guard against an
existing install, guard on the tar tool, download the archive into the SDK
root, extract it with tar, rename the version-qualified directory to
`wasisdk`, delete the archive. Each collaborator failure aborts with the
trace accumulated so far. -/
def wasiDownload (env : WasiEnv) (p : Project) (fs : FS) : OpResult :=
  if fs.dirExists (wasisdkDir p) then
    { trace := [], fs := fs,
      error := some "WASI SDK already installed, run 'fibs wasisdk uninstall' first" }
  else if !env.tarAvailable then
    { trace := [], fs := fs,
      error := some "tar command not found (run 'fibs diag tools'" }
  else
    let sdkDir := p.sdkDir
    let filename := getSdkName env.host ++ ".tgz"
    let url := getUrl env.host
    let t0 : List Effect :=
      [.logSection "downloading WASI SDK", .download url sdkDir filename]
    match env.downloadResult with
    | .error e => { trace := t0, fs := fs, error := some e }
    | .ok _ =>
      let fs1 := fs.addFile (sdkDir ++ "/" ++ filename)
      let t1 := t0 ++
        [.logInfo "ok       ", .logSection "uncompressing WASI SDK",
         .runCmd "tar" ["xf", filename] (some sdkDir)]
      match env.tarResult with
      | .error e => { trace := t1, fs := fs1, error := some e }
      | .ok _ =>
        let fs2 := fs1.addDir (sdkDir ++ "/" ++ getSdkName env.host)
        let fs3 := ((fs2.renameDir (sdkDir ++ "/" ++ getSdkName env.host)
          (sdkDir ++ "/wasisdk")).removeFile (sdkDir ++ "/" ++ filename))
        { trace := t1 ++
            [.rename (sdkDir ++ "/" ++ getSdkName env.host) (sdkDir ++ "/wasisdk"),
             .removeFile (sdkDir ++ "/" ++ filename), .logInfo "ok"],
          fs := fs3, error := none }

/-- Embedding of `install` from wasi.ts: it only delegates to `download`. -/
def wasiInstall (env : WasiEnv) (p : Project) (fs : FS) : OpResult :=
  wasiDownload env p fs

/-- Embedding of `uninstall` from wasi.ts lines 163-176. `response` is the
user's answer to the confirmation prompt, `none` meaning the default was
accepted; `log.ask(prompt, false)` resolves it with default `false`. -/
def wasiUninstall (response : Option Bool) (p : Project) (fs : FS) :
    List Effect × FS :=
  let dir := wasisdkDir p
  if fs.dirExists dir then
    if response.getD false then
      ([.ask ("Delete directory " ++ dir ++ "?") false,
        .logInfo ("deleting " ++ dir ++ "..."),
        .removeDir dir, .logInfo "done."],
       fs.removeDir dir)
    else
      ([.ask ("Delete directory " ++ dir ++ "?") false,
        .logInfo "nothing to do."], fs)
  else
    ([.logWarn "WASI SDK not installed, nothing to do."], fs)

/-- Result record of a config validate function. -/
structure ValidateResult where
  valid : Bool
  hints : List String
deriving DecidableEq, Repr

/-- Embedding of the wasi `baseConfig.validate` closure (wasi.ts lines 44-53). -/
def wasiValidate (p : Project) (fs : FS) : ValidateResult :=
  if !(fs.dirExists (wasisdkDir p)) then
    { valid := false,
      hints := ["WASI SDK not installed (run 'fibs wasisdk install')"] }
  else
    { valid := true, hints := [] }

/-- Embedding of `runnerRun` from wasi.ts lines 125-135: build the artifact
path, prepend it to the caller's args, spawn wasmtime with the otherwise
unchanged options. The value is the command and options handed to
`util.runCmd`. -/
def wasiRunnerRun (p : Project) (_config : Config) (t : Target)
    (options : RunOptions) : String × RunOptions :=
  let path := p.distDir0 ++ "/" ++ t.name ++ ".wasm"
  ("wasmtime", { options with args := path :: options.args })

/-! ## emscripten.ts -/

/-- Constant `EMSDK_URL` from emscripten.ts. -/
def EMSDK_URL : String := "https://github.com/emscripten-core/emsdk.git"

/-- Embedding of `emsdkDir` from emscripten.ts. -/
def emsdkDir (p : Project) : String :=
  p.sdkDir ++ "/emsdk"

/-- Manager-level `isInstalled()` for the emscripten SDK: the normalized
directory exists (the check the config validate function performs). -/
def emIsInstalled (p : Project) (fs : FS) : Bool :=
  fs.dirExists (emsdkDir p)

/-- Outcomes of the external collaborators the emscripten install path
consults: the git update and clone operations, and the two emsdk tool
invocations. A `.ok n` invocation outcome is the subprocess finishing with
exit code `n`; a `.error e` outcome is the process-execution primitive
raising `e`. -/
structure EmEnv where
  gitUpdateResult : Except String Unit
  gitCloneResult : Except String Unit
  installRun : Except String Int
  activateRun : Except String Int

/-- Embedding of the `emsdk` helper from emscripten.ts lines 127-140: panic
if the tool script is absent, otherwise spawn it in the SDK directory and
return its exit code to the caller. The value is the recorded effects and
either the raised error or the exit code. -/
def emsdkCall (result : Except String Int) (p : Project) (fs : FS)
    (args : List String) : List Effect × Except String Int :=
  let cmd := emsdkDir p ++ "/emsdk"
  if !(fs.fileExists cmd) then
    ([], .error ("emsdk tool not found at " ++ cmd ++ ", run 'fibs emsdk install"))
  else
    match result with
    | .error e => ([.runCmd cmd args (some (emsdkDir p))], .error e)
    | .ok n => ([.runCmd cmd args (some (emsdkDir p))], .ok n)

/-- Embedding of `cloneOrUpdateEmsdk` from emscripten.ts lines 158-168:
ensure the SDK root exists (create-if-absent), then force-sync the clone if
the emsdk directory exists, otherwise clone it (a successful clone creates
the directory together with the emsdk tool script). -/
def emCloneOrUpdate (env : EmEnv) (p : Project) (fs : FS) : OpResult :=
  let fs0 := if fs.dirExists p.sdkDir then fs else fs.addDir p.sdkDir
  let dir := emsdkDir p
  if fs0.dirExists dir then
    match env.gitUpdateResult with
    | .error e =>
      { trace := [.logSection ("updating emsdk in " ++ dir),
                  .gitUpdate dir EMSDK_URL true],
        fs := fs0, error := some e }
    | .ok _ =>
      { trace := [.logSection ("updating emsdk in " ++ dir),
                  .gitUpdate dir EMSDK_URL true],
        fs := fs0, error := none }
  else
    match env.gitCloneResult with
    | .error e =>
      { trace := [.logSection ("cloning emsdk to " ++ dir ++ " "),
                  .gitClone EMSDK_URL p.sdkDir],
        fs := fs0, error := some e }
    | .ok _ =>
      { trace := [.logSection ("cloning emsdk to " ++ dir ++ " "),
                  .gitClone EMSDK_URL p.sdkDir],
        fs := (fs0.addDir dir).addFile (dir ++ "/emsdk"), error := none }

/-- Embedding of `activate` from emscripten.ts lines 153-156. -/
def emActivate (env : EmEnv) (p : Project) (fs : FS) (version : String) :
    List Effect × Except String Int :=
  let (t, r) := emsdkCall env.activateRun p fs ["activate", "--embedded", version]
  (Effect.logSection ("activing emsdk version '" ++ version ++ "'") :: t, r)

/-- Embedding of `install` from emscripten.ts lines 142-151: clone or
force-sync, run `emsdk install --shallow --disable-assertions <version>`,
then `activate`. The exit codes returned by the two `emsdk` invocations are
awaited and discarded, exactly as in the source; only a raised error aborts. -/
def emInstall (env : EmEnv) (p : Project) (fs : FS) (version : String) :
    OpResult :=
  let r1 := emCloneOrUpdate env p fs
  match r1.error with
  | some e => { r1 with error := some e }
  | none =>
    let (t2, res2) := emsdkCall env.installRun p r1.fs
      ["install", "--shallow", "--disable-assertions", version]
    match res2 with
    | .error e => { trace := r1.trace ++ t2, fs := r1.fs, error := some e }
    | .ok _exitCode =>
      let (t3, res3) := emActivate env p r1.fs version
      match res3 with
      | .error e => { trace := r1.trace ++ t2 ++ t3, fs := r1.fs, error := some e }
      | .ok _exitCode2 => { trace := r1.trace ++ t2 ++ t3, fs := r1.fs, error := none }

/-- Parsed emsdk subcommand arguments (emscripten.ts `parseArgs`). -/
structure EmArgs where
  install : Bool := false
  list : Bool := false
  uninstall : Bool := false
  version : Option String := none
deriving DecidableEq, Repr

/-- Embedding of `parseArgs` from emscripten.ts lines 91-121, over the
command line argument vector: `install` takes an optional version defaulting
to `latest`; a missing or unknown subcommand is a fatal usage error. -/
def emParseArgs (cmdLineArgs : List String) : Except String EmArgs :=
  match cmdLineArgs[1]? with
  | none => .error "expected a subcommand (run 'fibs help emsdk')"
  | some sub =>
    if sub == "install" then
      let v := match cmdLineArgs[2]? with
        | none => "latest"
        | some v => v
      .ok { install := true, version := some v }
    else if sub == "list" then
      .ok { list := true }
    else if sub == "uninstall" then
      .ok { uninstall := true }
    else
      .error ("unknown subcommand '" ++ sub ++ " (run 'fibs help emsdk')")

/-- Embedding of `uninstall` from emscripten.ts lines 174-187, same shape as
the wasi uninstall. -/
def emUninstall (response : Option Bool) (p : Project) (fs : FS) :
    List Effect × FS :=
  let dir := emsdkDir p
  if fs.dirExists dir then
    if response.getD false then
      ([.ask ("Delete directory " ++ dir ++ "?") false,
        .logInfo ("deleting " ++ dir ++ "..."),
        .removeDir dir, .logInfo "done."],
       fs.removeDir dir)
    else
      ([.ask ("Delete directory " ++ dir ++ "?") false,
        .logInfo "nothing to do."], fs)
  else
    ([.logWarn "Emscripten SDK not installed, nothing to do."], fs)

/-- Options literal handed to `util.runCmd` by the emscripten runner (only
`cwd` and `args` are set in the source). -/
structure RunCmdOptions where
  args : List String := []
  cwd : Option String := none
deriving DecidableEq, Repr

/-- Embedding of `runnerRun` from emscripten.ts lines 76-89: the caller's
RunOptions parameter is bound as `_options` and never used; emrun is spawned
in the config's dist directory on the target's html file, always forcing the
chrome browser. The value is the command and options handed to `util.runCmd`. -/
def emRunnerRun (p : Project) (config : Config) (t : Target)
    (_options : RunOptions) : String × RunCmdOptions :=
  let emrunPath := p.sdkDir ++ "/emsdk/upstream/emscripten/emrun"
  let cwd := p.distDir config.name
  (emrunPath, { cwd := some cwd, args := ["--browser", "chrome", t.name ++ ".html"] })

/-- Embedding of the `emrun` helper of the sibling emscripten plugin source
(src/unnamed/part_001 lines 120-135): the emrun filename and the forced
chrome arguments depend on the host platform, the rest on the given cwd and
file only. -/
def emrunSpawn (isHostWindows isHostMacOS : Bool) (p : Project)
    (cwd file : String) : String × RunCmdOptions :=
  let emrunFilename := if isHostWindows then "emrun.bat" else "emrun"
  let emrunPath := p.sdkDir ++ "/emsdk/upstream/emscripten/" ++ emrunFilename
  let forceChromeArgs := if isHostMacOS then ["--browser", "chrome"] else []
  (emrunPath, { cwd := some cwd, args := forceChromeArgs ++ [file] })

/-- Embedding of `runnerRun` from src/unnamed/part_001 lines 111-118, which
ignores its RunOptions parameter and delegates to `emrun`. -/
def emRunnerRunAlt (isHostWindows isHostMacOS : Bool) (p : Project)
    (config : Config) (t : Target) (_options : RunOptions) :
    String × RunCmdOptions :=
  emrunSpawn isHostWindows isHostMacOS p (p.distDir config.name)
    (t.name ++ ".html")

/-! ## Configuration descriptors and object-spread inheritance -/

/-- The slice of the fibs `Configurer` object the plugins use. -/
structure Configurer where
  sdkDir : String

/-- Configuration descriptor with every optional TypeScript field as an
`Option`; `none` is a field the descriptor does not set. The validate field
carries the validate closure itself. -/
structure ConfigDesc where
  name : Option String := none
  platform : Option String := none
  runner : Option String := none
  generator : Option String := none
  buildMode : Option String := none
  opener : Option String := none
  toolchainFile : Option String := none
  cmakeVariables : Option (List (String × String)) := none
  compilers : Option (List String) := none
  validate : Option (Project → FS → ValidateResult) := none

/-- One field of a JavaScript object spread `{...base, field: v}`: the
literal's own field, when given, replaces the base's. -/
def spreadField (base override : Option α) : Option α :=
  match override with
  | some v => some v
  | none => base

/-- Embedding of the object spread `{...baseConfig, <explicit fields>}` used
by every `addConfig` call: field-wise override-or-inherit. -/
def spread (base override : ConfigDesc) : ConfigDesc where
  name := spreadField base.name override.name
  platform := spreadField base.platform override.platform
  runner := spreadField base.runner override.runner
  generator := spreadField base.generator override.generator
  buildMode := spreadField base.buildMode override.buildMode
  opener := spreadField base.opener override.opener
  toolchainFile := spreadField base.toolchainFile override.toolchainFile
  cmakeVariables := spreadField base.cmakeVariables override.cmakeVariables
  compilers := spreadField base.compilers override.compilers
  validate := spreadField base.validate override.validate

/-- Embedding of the wasi `baseConfig` descriptor (wasi.ts lines 34-54). -/
def wasiBaseConfig (c : Configurer) : ConfigDesc where
  name := some "wasi"
  platform := some "wasi"
  runner := some "wasi"
  toolchainFile := some (c.sdkDir ++ "/wasisdk/share/cmake/wasi-sdk.cmake")
  buildMode := some "debug"
  cmakeVariables := some
    [("WASI_SDK_PREFIX", c.sdkDir ++ "/wasisdk"),
     ("CMAKE_EXECUTABLE_SUFFIX", ".wasm")]
  validate := some wasiValidate

/-- Explicit fields of the `wasi-make-debug` addConfig literal. -/
def wasiMakeDebugOverride : ConfigDesc where
  name := some "wasi-make-debug"
  generator := some "make"
  buildMode := some "debug"

/-- Explicit fields of the `wasi-make-release` addConfig literal. -/
def wasiMakeReleaseOverride : ConfigDesc where
  name := some "wasi-make-release"
  generator := some "make"
  buildMode := some "release"

/-- Explicit fields of the `wasi-ninja-debug` addConfig literal. -/
def wasiNinjaDebugOverride : ConfigDesc where
  name := some "wasi-ninja-debug"
  generator := some "ninja"
  buildMode := some "debug"

/-- Explicit fields of the `wasi-ninja-release` addConfig literal. -/
def wasiNinjaReleaseOverride : ConfigDesc where
  name := some "wasi-ninja-release"
  generator := some "ninja"
  buildMode := some "release"

/-- Explicit fields of the `wasi-vscode-debug` addConfig literal. -/
def wasiVscodeDebugOverride : ConfigDesc where
  name := some "wasi-vscode-debug"
  generator := some "ninja"
  buildMode := some "debug"
  opener := some "vscode"

/-- Explicit fields of the `wasi-vscode-release` addConfig literal. -/
def wasiVscodeReleaseOverride : ConfigDesc where
  name := some "wasi-vscode-release"
  generator := some "ninja"
  buildMode := some "release"
  opener := some "vscode"

/-- The six wasi variant overrides in registration order (wasi.ts 55-66). -/
def wasiVariantOverrides : List ConfigDesc :=
  [wasiMakeDebugOverride, wasiMakeReleaseOverride, wasiNinjaDebugOverride,
   wasiNinjaReleaseOverride, wasiVscodeDebugOverride, wasiVscodeReleaseOverride]

/-! ## Tool probes -/

/-- Result record of `util.runCmd` as the probes consume it. -/
structure CmdResult where
  exitCode : Int
deriving DecidableEq, Repr

/-- Tool descriptor; the TypeScript field `exists` is spelled `toolExists`
because `exists` is reserved in Lean. The probe body is a function of the
version-probe subprocess outcome. -/
structure ToolDesc where
  name : String
  platforms : List String
  optional : Bool
  notFoundMsg : String
  toolExists : Except String CmdResult → Except String Bool

/-- Embedding of a try/catch whose try body produces a Bool and whose catch
arm returns a Bool instead of rethrowing. -/
def tryCatchBool (body : Except String Bool)
    (handler : String → Except String Bool) : Except String Bool :=
  match body with
  | .ok b => .ok b
  | .error e => handler e

/-- Probe body shared by both tools (wasi.ts lines 75-86 and 95-106): await
the version-probe subprocess and return true, catching any failure as false. -/
def probeExists (runOutcome : Except String CmdResult) : Except String Bool :=
  tryCatchBool (do let _ ← runOutcome; pure true) (fun _err => pure false)

/-- Embedding of `tarTool` from wasi.ts lines 70-87. -/
def tarTool : ToolDesc where
  name := "tar"
  platforms := ["windows", "macos", "linux"]
  optional := true
  notFoundMsg := "required for unpacking downloaded sdk archives"
  toolExists := probeExists

/-- Embedding of `wasmtimeTool` from wasi.ts lines 90-107. -/
def wasmtimeTool : ToolDesc where
  name := "wasmtime"
  platforms := ["windows", "linux", "macos"]
  optional := true
  notFoundMsg := "required for running wasi executables"
  toolExists := probeExists

/-! ## Basic filesystem lemmas -/

/-- A directory just created exists. -/
theorem FS.dirExists_addDir_self (fs : FS) (d : String) :
    (fs.addDir d).dirExists d = true := by
  simp [FS.addDir, FS.dirExists]

/-- A file just deleted does not exist. -/
theorem FS.fileExists_removeFile_self (fs : FS) (f : String) :
    (fs.removeFile f).fileExists f = false := by
  simp [FS.removeFile, FS.fileExists]

/-- A directory just deleted does not exist. -/
theorem FS.dirExists_removeDir_self (fs : FS) (d : String) :
    (fs.removeDir d).dirExists d = false := by
  simp [FS.removeDir, FS.dirExists]

/-- Accepting the prompt's default never reads as an affirmative answer, and
an affirmative resolution can only come from an explicit yes. -/
theorem ask_default_false_of_affirmative (o : Option Bool)
    (h : o.getD false = true) : o = some true := by
  cases o with
  | none => simp at h
  | some b => cases b with
    | true => rfl
    | false => simp at h

/-! ## Concrete sample inputs used by witnesses and counterexamples -/

/-- Sample host. -/
def sampleHost : Host where
  arch := "x86_64"
  platform := "linux"

/-- Sample project rooted at /work. -/
def sampleProject : Project where
  sdkDir := "/work/sdks"
  distDir0 := "/work/dist"
  distDir := fun cfg => "/work/dist/" ++ cfg

/-- Filesystem with the SDK root present and no SDK installed. -/
def fsNoSdk : FS where
  dirs := ["/work/sdks"]
  files := []

/-- Filesystem with the WASI SDK installed. -/
def fsWasiInstalled : FS where
  dirs := ["/work/sdks", "/work/sdks/wasisdk"]
  files := []

/-- Filesystem with the emscripten SDK installed and its emsdk tool script
present. -/
def fsEmInstalled : FS where
  dirs := ["/work/sdks", "/work/sdks/emsdk"]
  files := ["/work/sdks/emsdk/emsdk"]

/-- Collaborator environment in which every wasi install step succeeds. -/
def wasiEnvOk : WasiEnv where
  host := sampleHost
  tarAvailable := true
  downloadResult := .ok ()
  tarResult := .ok ()

/-- Collaborator environment in which every emscripten install step succeeds
with exit code 0. -/
def emEnvOk : EmEnv where
  gitUpdateResult := .ok ()
  gitCloneResult := .ok ()
  installRun := .ok 0
  activateRun := .ok 0

/-- Collaborator environment in which the `emsdk install` invocation finishes
with the nonzero exit code 1 and everything else succeeds. -/
def emEnvInstallExit1 : EmEnv where
  gitUpdateResult := .ok ()
  gitCloneResult := .ok ()
  installRun := .ok 1
  activateRun := .ok 0

/-- Sample configurer for resolving the config descriptors. -/
def sampleConfigurer : Configurer where
  sdkDir := "/work/sdks"

/-! ## Claim theorems -/

/-- C5: for every artifact target and every RunOptions value, the wasi runner
spawns wasmtime with the artifact path `distDir/<target>.wasm` as the first
argument followed by the caller-supplied arguments in their original order,
and leaves the other RunOptions fields (working directory, environment
overrides) unchanged. -/
theorem C5_wasi_runner_prepends_artifact_path (p : Project) (c : Config)
    (t : Target) (o : RunOptions) :
    (wasiRunnerRun p c t o).1 = "wasmtime" ∧
    (wasiRunnerRun p c t o).2.args =
      (p.distDir0 ++ "/" ++ t.name ++ ".wasm") :: o.args ∧
    (wasiRunnerRun p c t o).2.cwd = o.cwd ∧
    (wasiRunnerRun p c t o).2.envVars = o.envVars :=
  ⟨rfl, rfl, rfl, rfl⟩

/-- C7: the wasi config validate function returns invalid with the single
hint naming the `fibs wasisdk install` subcommand exactly when the normalized
SDK directory is absent, returns valid with no hints when it is present, is a
total function (never throws), and depends on the environment only through
the existence of that one directory. -/
theorem C7_wasi_validate_behavior (p : Project) (fs fs2 : FS) :
    (fs.dirExists (wasisdkDir p) = false →
      wasiValidate p fs =
        { valid := false,
          hints := ["WASI SDK not installed (run 'fibs wasisdk install')"] }) ∧
    (fs.dirExists (wasisdkDir p) = true →
      wasiValidate p fs = { valid := true, hints := [] }) ∧
    (fs.dirExists (wasisdkDir p) = fs2.dirExists (wasisdkDir p) →
      wasiValidate p fs = wasiValidate p fs2) := by
  refine ⟨fun h => ?_, fun h => ?_, fun h => ?_⟩
  · simp [wasiValidate, h]
  · simp [wasiValidate, h]
  · simp only [wasiValidate, h]

/-- Witness for C7 at concrete inputs: absent directory yields the hint,
present directory yields valid. -/
theorem C7_wasi_validate_behavior_witness :
    wasiValidate sampleProject fsNoSdk =
      { valid := false,
        hints := ["WASI SDK not installed (run 'fibs wasisdk install')"] } ∧
    wasiValidate sampleProject fsWasiInstalled =
      { valid := true, hints := [] } :=
  ⟨(C7_wasi_validate_behavior sampleProject fsNoSdk fsNoSdk).1 rfl,
   (C7_wasi_validate_behavior sampleProject fsWasiInstalled fsNoSdk).2.1 rfl⟩

/-- C8: both registered tool probes (tar, wasmtime) never raise: whatever the
version-probe subprocess outcome, the probe returns an `ok` boolean, true on
subprocess success and false on any subprocess failure. -/
theorem C8_tool_probes_never_raise (outcome : Except String CmdResult) :
    tarTool.toolExists outcome =
      .ok (match outcome with | .ok _ => true | .error _ => false) ∧
    wasmtimeTool.toolExists outcome =
      .ok (match outcome with | .ok _ => true | .error _ => false) := by
  cases outcome with
  | ok r => exact ⟨rfl, rfl⟩
  | error e => exact ⟨rfl, rfl⟩

/-- C9: the emscripten runner discards its RunOptions parameter: any two
RunOptions values produce the identical spawned command and options, which
are determined solely by the project, the configuration name and the target
name (and, in the sibling plugin variant, the host platform flags). -/
theorem C9_em_runner_ignores_options (p : Project) (c : Config) (t : Target)
    (o1 o2 : RunOptions) (isHostWindows isHostMacOS : Bool) :
    emRunnerRun p c t o1 = emRunnerRun p c t o2 ∧
    emRunnerRun p c t o1 =
      (p.sdkDir ++ "/emsdk/upstream/emscripten/emrun",
       { cwd := some (p.distDir c.name),
         args := ["--browser", "chrome", t.name ++ ".html"] }) ∧
    emRunnerRunAlt isHostWindows isHostMacOS p c t o1 =
      emRunnerRunAlt isHostWindows isHostMacOS p c t o2 :=
  ⟨rfl, rfl, rfl⟩

/-- C10: the uninstall confirmation prompt is issued with default `false`;
accepting the default takes the refusal branch, which reports nothing to do
and leaves the filesystem snapshot unchanged, and a removeDir effect occurs
only on an explicit affirmative answer. Both managers behave alike. -/
theorem C10_uninstall_default_negative (p : Project) (fs : FS)
    (resp : Option Bool) :
    (fs.dirExists (wasisdkDir p) = true →
      wasiUninstall none p fs =
        ([.ask ("Delete directory " ++ wasisdkDir p ++ "?") false,
          .logInfo "nothing to do."], fs)) ∧
    (fs.dirExists (emsdkDir p) = true →
      emUninstall none p fs =
        ([.ask ("Delete directory " ++ emsdkDir p ++ "?") false,
          .logInfo "nothing to do."], fs)) ∧
    (Effect.removeDir (wasisdkDir p) ∈ (wasiUninstall resp p fs).1 →
      resp = some true) ∧
    (Effect.removeDir (emsdkDir p) ∈ (emUninstall resp p fs).1 →
      resp = some true) := by
  refine ⟨fun h => by simp [wasiUninstall, h],
          fun h => by simp [emUninstall, h], fun h => ?_, fun h => ?_⟩
  · cases hd : fs.dirExists (wasisdkDir p) with
    | false => simp [wasiUninstall, hd] at h
    | true =>
      cases hr : resp.getD false with
      | false => simp [wasiUninstall, hd, hr] at h
      | true => exact ask_default_false_of_affirmative resp hr
  · cases hd : fs.dirExists (emsdkDir p) with
    | false => simp [emUninstall, hd] at h
    | true =>
      cases hr : resp.getD false with
      | false => simp [emUninstall, hd, hr] at h
      | true => exact ask_default_false_of_affirmative resp hr

/-- Witness for C10: with each SDK installed, accepting the default answer
refuses deletion for both managers and leaves the snapshot unchanged. -/
theorem C10_uninstall_default_negative_witness :
    wasiUninstall none sampleProject fsWasiInstalled =
      ([.ask ("Delete directory " ++ wasisdkDir sampleProject ++ "?") false,
        .logInfo "nothing to do."], fsWasiInstalled) ∧
    emUninstall none sampleProject fsEmInstalled =
      ([.ask ("Delete directory " ++ emsdkDir sampleProject ++ "?") false,
        .logInfo "nothing to do."], fsEmInstalled) :=
  ⟨(C10_uninstall_default_negative sampleProject fsWasiInstalled none).1 rfl,
   (C10_uninstall_default_negative sampleProject fsEmInstalled none).2.1 rfl⟩

/-- C6: uninstall is idempotent: whatever the first (confirmed) uninstall
left behind, a second uninstall with any answer warns that the SDK is not
installed and changes nothing, and on an absent SDK directory uninstall is a
warn-only no-op for both managers. -/
theorem C6_uninstall_idempotent (p : Project) (fs : FS) (r2 : Option Bool) :
    wasiUninstall r2 p (wasiUninstall (some true) p fs).2 =
      ([.logWarn "WASI SDK not installed, nothing to do."],
       (wasiUninstall (some true) p fs).2) ∧
    emUninstall r2 p (emUninstall (some true) p fs).2 =
      ([.logWarn "Emscripten SDK not installed, nothing to do."],
       (emUninstall (some true) p fs).2) ∧
    (fs.dirExists (wasisdkDir p) = false →
      wasiUninstall r2 p fs =
        ([.logWarn "WASI SDK not installed, nothing to do."], fs)) ∧
    (fs.dirExists (emsdkDir p) = false →
      emUninstall r2 p fs =
        ([.logWarn "Emscripten SDK not installed, nothing to do."], fs)) := by
  have hw : (wasiUninstall (some true) p fs).2.dirExists (wasisdkDir p) = false := by
    cases hd : fs.dirExists (wasisdkDir p) with
    | false => simp [wasiUninstall, hd]
    | true => simp [wasiUninstall, hd, FS.dirExists_removeDir_self]
  have he : (emUninstall (some true) p fs).2.dirExists (emsdkDir p) = false := by
    cases hd : fs.dirExists (emsdkDir p) with
    | false => simp [emUninstall, hd]
    | true => simp [emUninstall, hd, FS.dirExists_removeDir_self]
  refine ⟨?_, ?_, fun h => by simp [wasiUninstall, h], fun h => by simp [emUninstall, h]⟩
  · rw [wasiUninstall, if_neg (by simp [hw])]
  · rw [emUninstall, if_neg (by simp [he])]

/-- Witness for C6 at concrete inputs: on the SDK-root-only filesystem both
uninstalls are warn-only no-ops. -/
theorem C6_uninstall_idempotent_witness :
    wasiUninstall none sampleProject fsNoSdk =
      ([.logWarn "WASI SDK not installed, nothing to do."], fsNoSdk) ∧
    emUninstall none sampleProject fsNoSdk =
      ([.logWarn "Emscripten SDK not installed, nothing to do."], fsNoSdk) :=
  ⟨(C6_uninstall_idempotent sampleProject fsNoSdk none).2.2.1 rfl,
   (C6_uninstall_idempotent sampleProject fsNoSdk none).2.2.2 rfl⟩

/-- C1 counterexample: the repository-based (emscripten) lifecycle manager
violates the claim: with the SDK installed (`isInstalled()` true) and every
collaborator succeeding, `install` does not fail with an already-installed
error (it returns no error) and its trace performs subprocess invocations
(a forced git sync and the two emsdk invocations). -/
theorem C1_counterexample :
    emIsInstalled sampleProject fsEmInstalled = true ∧
    (emInstall emEnvOk sampleProject fsEmInstalled "latest").error = none ∧
    Effect.gitUpdate (emsdkDir sampleProject) EMSDK_URL true ∈
      (emInstall emEnvOk sampleProject fsEmInstalled "latest").trace ∧
    Effect.runCmd (emsdkDir sampleProject ++ "/emsdk")
        ["install", "--shallow", "--disable-assertions", "latest"]
        (some (emsdkDir sampleProject)) ∈
      (emInstall emEnvOk sampleProject fsEmInstalled "latest").trace := by
  refine ⟨rfl, rfl, ?_, ?_⟩ <;> decide

/-- C1 (amended): for the archive-based (WASI) lifecycle manager, install on
an already-installed SDK fails with the already-installed error telling the
user to uninstall first, records no effect at all (no filesystem write, no
download, no subprocess) and leaves the filesystem snapshot unchanged. -/
theorem C1_wasi_install_already_installed (env : WasiEnv) (p : Project)
    (fs : FS) (h : wasiIsInstalled p fs = true) :
    wasiInstall env p fs =
      { trace := [], fs := fs,
        error := some "WASI SDK already installed, run 'fibs wasisdk uninstall' first" } := by
  have h2 : fs.dirExists (wasisdkDir p) = true := h
  simp [wasiInstall, wasiDownload, h2]

/-- Witness for C1 at a concrete installed state. -/
theorem C1_wasi_install_already_installed_witness :
    wasiInstall wasiEnvOk sampleProject fsWasiInstalled =
      { trace := [], fs := fsWasiInstalled,
        error := some "WASI SDK already installed, run 'fibs wasisdk uninstall' first" } :=
  C1_wasi_install_already_installed wasiEnvOk sampleProject fsWasiInstalled rfl

/-- C2: when the WASI install succeeds from the absent state (tar available,
download and extraction succeed), its trace is exactly the sequence download,
extract, rename of the version-qualified directory to `wasisdk`, deletion of
the archive — in that order — and afterwards the normalized SDK directory
exists, the downloaded archive file does not exist, and `isInstalled()` is
true. -/
theorem C2_wasi_install_sequence (env : WasiEnv) (p : Project) (fs : FS)
    (hAbs : wasiIsInstalled p fs = false) (hTar : env.tarAvailable = true)
    (hDl : env.downloadResult = .ok ()) (hX : env.tarResult = .ok ()) :
    (wasiInstall env p fs).trace =
      [.logSection "downloading WASI SDK",
       .download (getUrl env.host) p.sdkDir (getSdkName env.host ++ ".tgz"),
       .logInfo "ok       ",
       .logSection "uncompressing WASI SDK",
       .runCmd "tar" ["xf", getSdkName env.host ++ ".tgz"] (some p.sdkDir),
       .rename (p.sdkDir ++ "/" ++ getSdkName env.host) (p.sdkDir ++ "/wasisdk"),
       .removeFile (p.sdkDir ++ "/" ++ (getSdkName env.host ++ ".tgz")),
       .logInfo "ok"] ∧
    (wasiInstall env p fs).error = none ∧
    wasiIsInstalled p (wasiInstall env p fs).fs = true ∧
    (wasiInstall env p fs).fs.fileExists
      (p.sdkDir ++ "/" ++ (getSdkName env.host ++ ".tgz")) = false := by
  have h1 : fs.dirExists (wasisdkDir p) = false := hAbs
  have h1m : p.sdkDir ++ "/wasisdk" ∉ fs.dirs := by
    simpa [FS.dirExists, wasisdkDir] using h1
  refine ⟨?_, ?_, ?_, ?_⟩ <;>
    simp [wasiInstall, wasiDownload, h1m, hTar, hDl, hX, wasiIsInstalled,
      wasisdkDir, FS.renameDir, FS.addDir, FS.removeDir, FS.addFile,
      FS.removeFile, FS.dirExists, FS.fileExists]

/-- Witness for C2 at concrete inputs where every step succeeds. -/
theorem C2_wasi_install_sequence_witness :
    (wasiInstall wasiEnvOk sampleProject fsNoSdk).error = none ∧
    wasiIsInstalled sampleProject (wasiInstall wasiEnvOk sampleProject fsNoSdk).fs = true ∧
    (wasiInstall wasiEnvOk sampleProject fsNoSdk).fs.fileExists
      (sampleProject.sdkDir ++ "/" ++ (getSdkName wasiEnvOk.host ++ ".tgz")) = false := by
  have h := C2_wasi_install_sequence wasiEnvOk sampleProject fsNoSdk rfl rfl rfl rfl
  exact ⟨h.2.1, h.2.2.1, h.2.2.2⟩

/-- C3 counterexample: the `emsdk install` invocation finishing with the
nonzero exit code 1 is not propagated as an error: install returns no error
and still proceeds to the activate invocation. -/
theorem C3_counterexample :
    emEnvInstallExit1.installRun = .ok 1 ∧
    (emInstall emEnvInstallExit1 sampleProject fsEmInstalled "latest").error = none ∧
    Effect.runCmd (emsdkDir sampleProject ++ "/emsdk")
        ["activate", "--embedded", "latest"] (some (emsdkDir sampleProject)) ∈
      (emInstall emEnvInstallExit1 sampleProject fsEmInstalled "latest").trace := by
  refine ⟨rfl, rfl, ?_⟩
  decide

/-- C3 (amended): the emscripten install clones the repository when the SDK
directory is absent and otherwise forces a git sync; it then runs the
embedded emsdk install and activate procedures as two sequential external
invocations carrying the requested version token (which `parseArgs` defaults
to `latest`); an error raised by the process-execution primitive aborts the
operation, but a nonzero exit code merely returned by an invocation is
discarded by install and does not abort. -/
theorem C3_em_install_behavior (env : EmEnv) (p : Project) (fs : FS)
    (version e : String) (n m : Int) :
    (fs.dirExists p.sdkDir = true → fs.dirExists (emsdkDir p) = false →
      (emCloneOrUpdate env p fs).trace =
        [.logSection ("cloning emsdk to " ++ emsdkDir p ++ " "),
         .gitClone EMSDK_URL p.sdkDir]) ∧
    (fs.dirExists (emsdkDir p) = true →
      (emCloneOrUpdate env p fs).trace =
        [.logSection ("updating emsdk in " ++ emsdkDir p),
         .gitUpdate (emsdkDir p) EMSDK_URL true]) ∧
    (fs.dirExists p.sdkDir = true → fs.dirExists (emsdkDir p) = true →
      fs.fileExists (emsdkDir p ++ "/emsdk") = true →
      env.gitUpdateResult = .ok () → env.installRun = .ok n →
      env.activateRun = .ok m →
      emInstall env p fs version =
        { trace :=
            [.logSection ("updating emsdk in " ++ emsdkDir p),
             .gitUpdate (emsdkDir p) EMSDK_URL true,
             .runCmd (emsdkDir p ++ "/emsdk")
               ["install", "--shallow", "--disable-assertions", version]
               (some (emsdkDir p)),
             .logSection ("activing emsdk version '" ++ version ++ "'"),
             .runCmd (emsdkDir p ++ "/emsdk")
               ["activate", "--embedded", version] (some (emsdkDir p))],
          fs := fs, error := none }) ∧
    emParseArgs ["emsdk", "install"] =
      .ok { install := true, version := some "latest" } ∧
    (fs.dirExists p.sdkDir = true → fs.dirExists (emsdkDir p) = true →
      fs.fileExists (emsdkDir p ++ "/emsdk") = true →
      env.gitUpdateResult = .ok () → env.installRun = .error e →
      emInstall env p fs version =
        { trace :=
            [.logSection ("updating emsdk in " ++ emsdkDir p),
             .gitUpdate (emsdkDir p) EMSDK_URL true,
             .runCmd (emsdkDir p ++ "/emsdk")
               ["install", "--shallow", "--disable-assertions", version]
               (some (emsdkDir p))],
          fs := fs, error := some e }) := by
  refine ⟨fun h1 h2 => ?_, fun h2 => ?_, fun h1 h2 h3 h4 h5 h6 => ?_, rfl,
          fun h1 h2 h3 h4 h5 => ?_⟩
  · cases hg : env.gitCloneResult with
    | ok u => simp [emCloneOrUpdate, h1, h2, hg]
    | error er => simp [emCloneOrUpdate, h1, h2, hg]
  · cases hs : fs.dirExists p.sdkDir with
    | true =>
      cases hg : env.gitUpdateResult with
      | ok u => simp [emCloneOrUpdate, hs, h2, hg]
      | error er => simp [emCloneOrUpdate, hs, h2, hg]
    | false =>
      have h2b : (fs.addDir p.sdkDir).dirExists (emsdkDir p) = true := by
        simp [FS.addDir, FS.dirExists] at h2 ⊢
        exact Or.inr h2
      cases hg : env.gitUpdateResult with
      | ok u => simp [emCloneOrUpdate, hs, h2b, hg]
      | error er => simp [emCloneOrUpdate, hs, h2b, hg]
  · simp [emInstall, emCloneOrUpdate, emsdkCall, emActivate, h1, h2, h3, h4, h5, h6]
  · simp [emInstall, emCloneOrUpdate, emsdkCall, emActivate, h1, h2, h3, h4, h5]

/-- Witness for C3 at concrete inputs: installed state, all collaborators
succeed, version token `latest`. -/
theorem C3_em_install_behavior_witness :
    emInstall emEnvOk sampleProject fsEmInstalled "latest" =
      { trace :=
          [.logSection ("updating emsdk in " ++ emsdkDir sampleProject),
           .gitUpdate (emsdkDir sampleProject) EMSDK_URL true,
           .runCmd (emsdkDir sampleProject ++ "/emsdk")
             ["install", "--shallow", "--disable-assertions", "latest"]
             (some (emsdkDir sampleProject)),
           .logSection ("activing emsdk version '" ++ "latest" ++ "'"),
           .runCmd (emsdkDir sampleProject ++ "/emsdk")
             ["activate", "--embedded", "latest"] (some (emsdkDir sampleProject))],
        fs := fsEmInstalled, error := none } ∧
    emParseArgs ["emsdk", "install"] =
      .ok { install := true, version := some "latest" } := by
  have h := C3_em_install_behavior emEnvOk sampleProject fsEmInstalled "latest" "" 0 0
  exact ⟨h.2.2.1 rfl rfl rfl rfl rfl rfl, h.2.2.2.1⟩

/-- C4 counterexample: the claim asserts every wasi-* variant overrides the
opener field, but the wasi-make-debug addConfig literal gives no opener: its
explicit field set has opener `none`, so the resolved record's opener is the
base's (absent) value, inherited rather than overridden. -/
theorem C4_counterexample :
    wasiMakeDebugOverride.opener = none ∧
    (spread (wasiBaseConfig sampleConfigurer) wasiMakeDebugOverride).opener =
      (wasiBaseConfig sampleConfigurer).opener ∧
    (wasiBaseConfig sampleConfigurer).opener = none :=
  ⟨rfl, rfl, rfl⟩

/-- C4 (amended): spread resolution gives the derived descriptor's explicitly
set fields and inherits every unset field from the base unchanged; every wasi
variant keeps the base's platform, runner, toolchainFile, cmakeVariables and
validate function while giving its own name, generator and buildMode; the
opener is overridden only by the two vscode variants and inherited (unset) by
the other four. -/
theorem C4_config_inheritance (base override : ConfigDesc) (c : Configurer)
    (v : String) (vars : List (String × String))
    (f : Project → FS → ValidateResult) :
    (override.name = some v → (spread base override).name = some v) ∧
    (override.name = none → (spread base override).name = base.name) ∧
    (override.platform = some v → (spread base override).platform = some v) ∧
    (override.platform = none → (spread base override).platform = base.platform) ∧
    (override.runner = some v → (spread base override).runner = some v) ∧
    (override.runner = none → (spread base override).runner = base.runner) ∧
    (override.generator = some v → (spread base override).generator = some v) ∧
    (override.generator = none → (spread base override).generator = base.generator) ∧
    (override.buildMode = some v → (spread base override).buildMode = some v) ∧
    (override.buildMode = none → (spread base override).buildMode = base.buildMode) ∧
    (override.opener = some v → (spread base override).opener = some v) ∧
    (override.opener = none → (spread base override).opener = base.opener) ∧
    (override.toolchainFile = some v → (spread base override).toolchainFile = some v) ∧
    (override.toolchainFile = none → (spread base override).toolchainFile = base.toolchainFile) ∧
    (override.cmakeVariables = some vars → (spread base override).cmakeVariables = some vars) ∧
    (override.cmakeVariables = none → (spread base override).cmakeVariables = base.cmakeVariables) ∧
    (override.validate = some f → (spread base override).validate = some f) ∧
    (override.validate = none → (spread base override).validate = base.validate) ∧
    (∀ o ∈ wasiVariantOverrides,
      (spread (wasiBaseConfig c) o).platform = (wasiBaseConfig c).platform ∧
      (spread (wasiBaseConfig c) o).runner = (wasiBaseConfig c).runner ∧
      (spread (wasiBaseConfig c) o).toolchainFile = (wasiBaseConfig c).toolchainFile ∧
      (spread (wasiBaseConfig c) o).cmakeVariables = (wasiBaseConfig c).cmakeVariables ∧
      (spread (wasiBaseConfig c) o).validate = (wasiBaseConfig c).validate ∧
      (spread (wasiBaseConfig c) o).name = o.name ∧
      (spread (wasiBaseConfig c) o).generator = o.generator ∧
      (spread (wasiBaseConfig c) o).buildMode = o.buildMode) ∧
    (spread (wasiBaseConfig c) wasiMakeDebugOverride).opener = (wasiBaseConfig c).opener ∧
    (spread (wasiBaseConfig c) wasiMakeReleaseOverride).opener = (wasiBaseConfig c).opener ∧
    (spread (wasiBaseConfig c) wasiNinjaDebugOverride).opener = (wasiBaseConfig c).opener ∧
    (spread (wasiBaseConfig c) wasiNinjaReleaseOverride).opener = (wasiBaseConfig c).opener ∧
    (spread (wasiBaseConfig c) wasiVscodeDebugOverride).opener = some "vscode" ∧
    (spread (wasiBaseConfig c) wasiVscodeReleaseOverride).opener = some "vscode" := by
  refine ⟨fun h => by simp [spread, spreadField, h],
          fun h => by simp [spread, spreadField, h],
          fun h => by simp [spread, spreadField, h],
          fun h => by simp [spread, spreadField, h],
          fun h => by simp [spread, spreadField, h],
          fun h => by simp [spread, spreadField, h],
          fun h => by simp [spread, spreadField, h],
          fun h => by simp [spread, spreadField, h],
          fun h => by simp [spread, spreadField, h],
          fun h => by simp [spread, spreadField, h],
          fun h => by simp [spread, spreadField, h],
          fun h => by simp [spread, spreadField, h],
          fun h => by simp [spread, spreadField, h],
          fun h => by simp [spread, spreadField, h],
          fun h => by simp [spread, spreadField, h],
          fun h => by simp [spread, spreadField, h],
          fun h => by simp [spread, spreadField, h],
          fun h => by simp [spread, spreadField, h],
          fun o ho => ?_, rfl, rfl, rfl, rfl, rfl, rfl⟩
  simp only [wasiVariantOverrides, List.mem_cons, List.not_mem_nil, or_false] at ho
  rcases ho with h | h | h | h | h | h <;> subst h <;>
    exact ⟨rfl, rfl, rfl, rfl, rfl, rfl, rfl, rfl⟩

/-- Witness for C4 at a concrete variant: wasi-ninja-release overrides the
generator and inherits the base's platform. -/
theorem C4_config_inheritance_witness :
    (spread (wasiBaseConfig sampleConfigurer) wasiNinjaReleaseOverride).generator =
      some "ninja" ∧
    (spread (wasiBaseConfig sampleConfigurer) wasiNinjaReleaseOverride).platform =
      (wasiBaseConfig sampleConfigurer).platform := by
  have h := C4_config_inheritance (wasiBaseConfig sampleConfigurer)
    wasiNinjaReleaseOverride sampleConfigurer "ninja" [] wasiValidate
  obtain ⟨-, -, -, -, -, -, hg, -, -, -, -, -, -, -, -, -, -, -, hvar, -⟩ := h
  refine ⟨hg rfl, ?_⟩
  have hm : wasiNinjaReleaseOverride ∈ wasiVariantOverrides := by
    simp [wasiVariantOverrides]
  exact (hvar wasiNinjaReleaseOverride hm).1

end FibsPlatforms
